import Mathlib

/-!
Verification of the pup-sdk configuration resolver and web gateway.

The definitions below are a shallow embedding of `src/pup_sdk/client.py`
(`PupClient.from_env`, `PupClient.get_status`) and `src/pup_sdk/web/app.py`
(`_force_live_backend`, `_ensure_live_client`, `chat_endpoint`,
`status_endpoint`, `_run_demo_chat`).  Environment variables are modelled as
`Option String` fields (absent = `none`); Python truthiness of a string
(`None` and `""` falsy) is `truthy`; network effects are passed in as
explicit oracle values.
-/

namespace PupSDK

/-- Python truthiness of `os.environ.get(X)`: `None` and `""` are falsy. -/
def truthy : Option String → Bool
  | none => false
  | some s => s != ""

/-- Python `a or b` on optional strings. -/
def pyOr (a b : Option String) : Option String :=
  if truthy a then a else b

/-- Python chained `or` over optional strings ending in a default:
`x1 or x2 or ... or d`. -/
def firstTruthy : List (Option String) → String → String
  | [], d => d
  | o :: os, d =>
    match o with
    | some s => if s != "" then s else firstTruthy os d
    | none => firstTruthy os d

/-- Characters stripped by Python `str.strip()` (ASCII whitespace). -/
def isSpaceChar (c : Char) : Bool :=
  c == ' ' || c == '\t' || c == '\n' || c == '\r' || c == '\x0b' || c == '\x0c'

/-- Python `s.strip()` (default whitespace stripping, ASCII subset). -/
def pyStrip (s : String) : String :=
  ⟨((s.data.dropWhile isSpaceChar).reverse.dropWhile isSpaceChar).reverse⟩

/-- Python `s.lower()` (ASCII case folding, as `Char.toLower`). -/
def pyLower (s : String) : String :=
  ⟨s.data.map Char.toLower⟩

/-- Python `s.rstrip("/")`: drop every trailing `/` character. -/
def rstripSlash (s : String) : String :=
  ⟨(s.data.reverse.dropWhile (fun c => c == '/')).reverse⟩

/-- `listStartsWith p s` : the char list `p` is an initial segment of `s`. -/
def listStartsWith : List Char → List Char → Bool
  | [], _ => true
  | _ :: _, [] => false
  | p :: ps, c :: cs => p == c && listStartsWith ps cs

/-- Python `s.startswith(p)` for a single pattern. -/
def strStartsWith (s p : String) : Bool :=
  listStartsWith p.data s.data

/-- The process environment restricted to the variables pup-sdk reads. -/
structure Env where
  alberto_api_url : Option String := none
  pup_backend_url : Option String := none
  syn_api_key : Option String := none
  open_api_key : Option String := none
  pup_provider : Option String := none
  pup_allow_keyless_backend : Option String := none
deriving DecidableEq, Repr

/-- The backend-URL precedence chain of `PupClient.from_env` /
`create_and_connect` (client.py lines 616-621):
`ALBERTO_API_URL or PUP_BACKEND_URL or base_url or "http://localhost:8080"`. -/
def backendUrlChain (env : Env) (base_url : Option String) : String :=
  firstTruthy [env.alberto_api_url, env.pup_backend_url, base_url]
    "http://localhost:8080"

/-- A credential is usable iff set and non-empty after trimming
(`key and key.strip()` in client.py lines 649-650). -/
def usable : Option String → Bool
  | none => false
  | some s => pyStrip s != ""

/-- The literal loopback URL pattern tuple, `local_prefixes` in
client.py lines 670-675 and `_LOCAL_PREFIXES` in web/app.py lines 30-35. -/
def localPrefixList : List String :=
  ["http://localhost", "http://127.0.0.1", "https://localhost", "https://127.0.0.1"]

/-- `backend_url.startswith(local_prefixes)`: literal string-start check
against the four loopback patterns. -/
def isLocalUrl (u : String) : Bool :=
  localPrefixList.any (fun p => strStartsWith u p)

/-- Truthiness of a boolean environment flag:
`(os.environ.get(X) or "").strip().lower() in {"1","true","yes","on"}`. -/
def truthyFlag (o : Option String) : Bool :=
  ["1", "true", "yes", "on"].contains (pyLower (pyStrip (o.getD "")))

/-- The observable state of a `PupClient` (client.py `__init__`, lines 82-111):
normalized base URL, optional api key, demo flag, plus the two connection
fields `_session is not None` (`hasSession`) and `_is_connected` (`connFlag`). -/
structure PupClientM where
  base_url : String
  api_key : Option String
  demo_mode : Bool
  hasSession : Bool := false
  connFlag : Bool := false
deriving DecidableEq, Repr

/-- `PupClient.__init__`: the stored base URL is `base_url.rstrip("/")`
(client.py line 90); the session starts closed. -/
def mkPupClient (base_url : String) (api_key : Option String) (demo_mode : Bool) :
    PupClientM :=
  { base_url := rstripSlash base_url
    api_key := api_key
    demo_mode := demo_mode }

/-- The `is_connected` property: `_is_connected and _session is not None`
(client.py line 234). -/
def isConnected (c : PupClientM) : Bool :=
  c.connFlag && c.hasSession

/-- The credential selection of `PupClient.from_env` (client.py lines 645-660):
provider preference first (`PUP_PROVIDER`, lowercased), then `OPEN_API_KEY`,
then `SYN_API_KEY`. -/
def chooseKey (env : Env) : Option String :=
  let syn_key := env.syn_api_key
  let openai_key := env.open_api_key
  let provider_pref := pyLower (env.pup_provider.getD "")
  if provider_pref == "syn" && usable syn_key then syn_key
  else if provider_pref == "openai" && usable openai_key then openai_key
  else if usable openai_key then openai_key
  else if usable syn_key then syn_key
  else none

/-- `PupClient.from_env` (client.py lines 589-699): resolve the backend URL,
then mode 1 (remote backend forced keyless live), mode 2 (direct provider) or
the keyless / demo fallback. -/
def fromEnv (env : Env) (base_url : Option String) : PupClientM :=
  let backend_url := backendUrlChain env base_url
  if truthy env.alberto_api_url || truthy env.pup_backend_url then
    mkPupClient backend_url none false
  else
    match chooseKey env with
    | some k => mkPupClient backend_url (some k) false
    | none =>
      let backend_is_local := isLocalUrl backend_url
      let allow_keyless :=
        !backend_is_local || truthyFlag env.pup_allow_keyless_backend
      if allow_keyless then mkPupClient backend_url none false
      else mkPupClient backend_url none true

/-- Outcome of a fallible network operation, as seen by the caller:
success with a value, or a raised exception carrying a message. -/
inductive NetResult (α : Type) where
  | ok (a : α)
  | err (msg : String)
deriving DecidableEq, Repr

/-- The fields of `ChatResponse` (types.py lines 135-143) that the gateway
reads or writes; `execution_time` is modelled exactly as a rational. -/
structure ChatResponseM where
  success : Bool
  response : String
  reasoning : Option String := none
  execution_time : ℚ
deriving DecidableEq, Repr

/-- The fixed list of canned demo strings of `_run_demo_chat`
(web/app.py lines 178-183). -/
def demoResponses : List String :=
  ["🐕 Woof! Alberto is currently running in demo mode. This is a simulated response!",
   "🐕 Hey there! In demo mode, I can still chat! To connect to the real Alberto, configure API keys!",
   "🐕 Demo mode activated! I\u0027m giving sample responses. Real Alberto needs API keys to help with actual coding tasks.",
   "🐕 Hi! I\u0027m Alberto\u0027s demo mode. The real me can help with coding, file operations, and more when API keys are configured!"]

/-- `_run_demo_chat` (web/app.py lines 176-192): `random.choice` is modelled
by the explicit index `choice`, always in range for the four-element list;
the reply is always `success=True` with the constant `execution_time=0.1`. -/
def runDemoChat (choice : Fin 4) : ChatResponseM :=
  { success := true
    response := demoResponses.getD choice.val ""
    execution_time := 0.1 }

/-- `_remote_backend_url` (web/app.py lines 38-39):
`os.environ.get("ALBERTO_API_URL") or os.environ.get("PUP_BACKEND_URL")`. -/
def remoteBackendUrl (env : Env) : Option String :=
  pyOr env.alberto_api_url env.pup_backend_url

/-- `_force_live_backend` (web/app.py lines 42-50): a truthy remote backend
URL forces live mode when it is non-local, or when the keyless flag is truthy. -/
def forceLiveBackend (env : Env) : Bool :=
  let url := remoteBackendUrl env
  if !truthy url then false
  else if !isLocalUrl (url.getD "") then true
  else truthyFlag env.pup_allow_keyless_backend

/-- `_ensure_live_client` (web/app.py lines 55-83): when live mode is forced,
refresh the held client through `PupClient.from_env` whenever it is missing,
in demo mode, or pointed at a different URL.  `from_env` performs no I/O and
cannot fail, so the `except` arm of the source is unreachable here. -/
def ensureLiveClient (env : Env) (c? : Option PupClientM) : Option PupClientM :=
  if !forceLiveBackend env then c?
  else
    let remote := remoteBackendUrl env
    let normalized := rstripSlash (remote.getD "")
    let needs_refresh :=
      match c? with
      | none => true
      | some c => c.demo_mode || (rstripSlash c.base_url != normalized)
    if !needs_refresh then c?
    else some (fromEnv env remote)

/-- The body of the `except` arms in `chat_endpoint`/`status_endpoint`
(web/app.py lines 233-235, 250-252, 289-291, 319-321):
`client._is_connected = False; if not force_live: client.demo_mode = True`. -/
def failUpdate (force_live : Bool) (c : PupClientM) : PupClientM :=
  { c with connFlag := false
           demo_mode := if force_live then c.demo_mode else true }

/-- `if force_live and client.demo_mode: client.demo_mode = False`
(web/app.py lines 221-222 and 271-272). -/
def clearDemoIfForced (force_live : Bool) (c : PupClientM) : PupClientM :=
  if force_live && c.demo_mode then { c with demo_mode := false } else c

/-- `PupClient.connect` (client.py lines 160-179): a no-op when a session
already exists; otherwise session construction either succeeds (opening the
session and marking connected) or raises.  No network request is issued. -/
def connectTry (c : PupClientM) (res : NetResult Unit) : NetResult PupClientM :=
  if c.hasSession then .ok c
  else
    match res with
    | .ok _ => .ok { c with hasSession := true, connFlag := true }
    | .err m => .err m

/-- The network effects one `chat_endpoint` call may perform: the outcome of
a `connect` attempt, the outcome of the upstream chat request, and the index
`random.choice` would pick for a demo reply. -/
structure ChatOracle where
  connectResult : NetResult Unit
  chatResult : NetResult ChatResponseM
  choice : Fin 4
deriving DecidableEq, Repr

/-- Result of one `chat_endpoint` call: the HTTP reply, the client state the
gateway holds afterwards, the number of upstream chat requests attempted, and
whether an exception was caught on the live path (`failed`). -/
structure ChatOutcome where
  resp : ChatResponseM
  client : Option PupClientM
  netCalls : Nat
  failed : Bool
deriving DecidableEq, Repr

/-- Steps (b) and (c) of `chat_endpoint` (web/app.py lines 228-253): ensure a
connection, then attempt the live chat call, falling back to a demo reply and
applying `failUpdate` on any exception. -/
def chatLive (force_live : Bool) (c : PupClientM) (o : ChatOracle) :
    ChatOutcome :=
  match (if isConnected c then .ok c else connectTry c o.connectResult :
      NetResult PupClientM) with
  | .err _ => ⟨runDemoChat o.choice, some (failUpdate force_live c), 0, true⟩
  | .ok c1 =>
    match o.chatResult with
    | .ok r => ⟨r, some c1, 1, false⟩
    | .err _ =>
      ⟨runDemoChat o.choice, some (failUpdate force_live c1), 1, true⟩

/-- `chat_endpoint` (web/app.py lines 212-253). -/
def chatEndpoint (env : Env) (c0? : Option PupClientM) (o : ChatOracle) :
    ChatOutcome :=
  let client? := ensureLiveClient env c0?
  let force_live := forceLiveBackend env
  match client? with
  | none => ⟨runDemoChat o.choice, none, 0, false⟩
  | some c0 =>
    let c := clearDemoIfForced force_live c0
    if !force_live && c.demo_mode then
      ⟨runDemoChat o.choice, some c, 0, false⟩
    else chatLive force_live c o

/-- The fields of `PupCapability` (types.py lines 105-112) the status paths
carry around. -/
structure PupCapabilityM where
  name : String
  description : String
  enabled : Bool := true
deriving DecidableEq, Repr

/-- The fields of `PupStatus` (types.py lines 115-123). -/
structure PupStatusM where
  available : Bool
  version : String
  uptime : Option ℚ := none
  current_directory : Option String := none
  capabilities : List PupCapabilityM := []
deriving DecidableEq, Repr

/-- The JSON payload `status_endpoint` returns (web/app.py lines 255-335):
the fixed fields of every branch, plus the merged upstream snapshot on the
success path. -/
structure StatusPayload where
  available : Bool
  version : String
  connected : Bool
  demo_mode : Bool
  message : Option String := none
  error : Option String := none
  status : Option PupStatusM := none
deriving DecidableEq, Repr

/-- The network effects one `status_endpoint` call may perform. -/
structure StatusOracle where
  connectResult : NetResult Unit
  statusResult : NetResult PupStatusM
deriving DecidableEq, Repr

/-- Result of one `status_endpoint` call, mirroring `ChatOutcome`. -/
structure StatusOutcome where
  payload : StatusPayload
  client : Option PupClientM
  netCalls : Nat
  failed : Bool
deriving DecidableEq, Repr

/-- The error payload of `status_endpoint`'s live branches (web/app.py lines
288-305 and 318-335): `connection_failed` with demo downgrade when live mode
is not forced, a keep-live error payload otherwise. -/
def statusFailurePayload (force_live : Bool) (m : String) : StatusPayload :=
  if !force_live then
    { available := false, version := "0.1.0", connected := false
      demo_mode := true, error := some "connection_failed" }
  else
    { available := false, version := "0.1.0", connected := false
      demo_mode := false, error := some ("connection_failed: " ++ m) }

/-- Steps (c) and (d) of `status_endpoint` (web/app.py lines 284-335):
ensure a connection, then fetch the upstream status and merge in the
`connected`/`demo_mode` flags, degrading on any exception. -/
def statusLive (force_live : Bool) (c : PupClientM) (o : StatusOracle) :
    StatusOutcome :=
  match (if isConnected c then .ok c else connectTry c o.connectResult :
      NetResult PupClientM) with
  | .err m =>
    ⟨statusFailurePayload force_live m, some (failUpdate force_live c), 0, true⟩
  | .ok c1 =>
    match o.statusResult with
    | .ok s =>
      ⟨{ available := s.available, version := s.version
         connected := isConnected c1 && !c1.demo_mode
         demo_mode := c1.demo_mode && !force_live
         status := some s },
       some c1, 1, false⟩
    | .err m =>
      ⟨statusFailurePayload force_live m, some (failUpdate force_live c1), 1, true⟩

/-- `status_endpoint` (web/app.py lines 255-335).  `client.get_status()` is
abstracted by the oracle's `statusResult`; its 30-second cache is modelled
separately by `getStatus` below. -/
def statusEndpoint (env : Env) (c0? : Option PupClientM) (o : StatusOracle) :
    StatusOutcome :=
  let client? := ensureLiveClient env c0?
  let force_live := forceLiveBackend env
  match client? with
  | none =>
    ⟨{ available := false, version := "0.1.0", connected := false
       demo_mode := !force_live, message := some "No client available" },
     none, 0, false⟩
  | some c0 =>
    let c := clearDemoIfForced force_live c0
    if c.demo_mode && !force_live then
      ⟨{ available := true, version := "0.1.0", connected := false
         demo_mode := true, message := some "Running in demo mode" },
       some c, 0, false⟩
    else statusLive force_live c o

/-- The status-cache fields of `PupClient` (client.py lines 97-98):
`_status_cache` and `_cache_timestamp` (time as a rational, in seconds). -/
structure StatusCache where
  cache : Option PupStatusM := none
  ts : Option ℚ := none
deriving DecidableEq, Repr

/-- Result of one `PupClient.get_status` call: the returned snapshot or the
propagated exception, the cache state afterwards, and whether an upstream
HTTP request was issued. -/
structure GetStatusOut where
  result : NetResult PupStatusM
  state : StatusCache
  requested : Bool
deriving DecidableEq, Repr

/-- The fetch path of `get_status` (client.py lines 308-311): issue the
request; on success store the snapshot and the current time, on failure the
exception propagates and the cache is left unchanged. -/
def getStatusFetch (st : StatusCache) (now : ℚ) (fetch : NetResult PupStatusM) :
    GetStatusOut :=
  match fetch with
  | .ok s => ⟨.ok s, { cache := some s, ts := some now }, true⟩
  | .err m => ⟨.err m, st, true⟩

/-- `PupClient.get_status` (client.py lines 298-311): return the cached
snapshot when one exists and is younger than 30 seconds, otherwise fetch. -/
def getStatus (st : StatusCache) (now : ℚ) (fetch : NetResult PupStatusM) :
    GetStatusOut :=
  match st.cache, st.ts with
  | some s, some t =>
    if now - t < 30 then ⟨.ok s, st, false⟩
    else getStatusFetch st now fetch
  | some _, none => getStatusFetch st now fetch
  | none, _ => getStatusFetch st now fetch

/-- Demo flag of the gateway's held client (`false` when no client is held,
matching the `not client` guards of the endpoints). -/
def demoOf : Option PupClientM → Bool
  | none => false
  | some c => c.demo_mode

/-! ### Helper lemmas -/

lemma usable_ne_none (o : Option String) (h : usable o = true) : o ≠ none := by
  cases o with
  | none => simp [usable] at h
  | some s => simp

lemma chooseKey_ne_none (env : Env)
    (hc : usable env.syn_api_key = true ∨ usable env.open_api_key = true) :
    chooseKey env ≠ none := by
  unfold chooseKey
  cases hs : usable env.syn_api_key <;> cases ho : usable env.open_api_key <;>
    cases hp1 : pyLower (env.pup_provider.getD "") == "syn" <;>
    cases hp2 : pyLower (env.pup_provider.getD "") == "openai" <;>
    simp_all <;>
    first
      | exact usable_ne_none env.syn_api_key hs
      | exact usable_ne_none env.open_api_key ho

lemma chooseKey_eq_none (env : Env)
    (hs : usable env.syn_api_key = false) (ho : usable env.open_api_key = false) :
    chooseKey env = none := by
  unfold chooseKey
  simp [hs, ho]

/-- Mode 1 of `from_env`: a truthy remote-backend variable yields a keyless,
non-demo client. -/
lemma fromEnv_remote_backend (env : Env) (u : Option String)
    (h : (truthy env.alberto_api_url || truthy env.pup_backend_url) = true) :
    (fromEnv env u).demo_mode = false ∧ (fromEnv env u).api_key = none := by
  unfold fromEnv
  simp [h, mkPupClient]

lemma truthy_pyOr (a b : Option String) :
    truthy (pyOr a b) = (truthy a || truthy b) := by
  cases h : truthy a <;> simp [pyOr, h]

lemma forceLive_backend_truthy (env : Env) (h : forceLiveBackend env = true) :
    (truthy env.alberto_api_url || truthy env.pup_backend_url) = true := by
  by_contra hne
  have hb : (truthy env.alberto_api_url || truthy env.pup_backend_url) = false := by
    cases hx : (truthy env.alberto_api_url || truthy env.pup_backend_url)
    · rfl
    · exact absurd hx hne
  have : truthy (remoteBackendUrl env) = false := by
    rw [remoteBackendUrl, truthy_pyOr, hb]
  rw [forceLiveBackend] at h
  simp [this] at h

lemma ensureLive_not_forced (env : Env) (c? : Option PupClientM)
    (hf : forceLiveBackend env = false) : ensureLiveClient env c? = c? := by
  unfold ensureLiveClient
  simp [hf]

lemma ensureLive_forced (env : Env) (c? : Option PupClientM)
    (hf : forceLiveBackend env = true) :
    ∃ c0, ensureLiveClient env c? = some c0 ∧ c0.demo_mode = false := by
  have hfresh : (fromEnv env (remoteBackendUrl env)).demo_mode = false :=
    (fromEnv_remote_backend env (remoteBackendUrl env)
      (forceLive_backend_truthy env hf)).1
  unfold ensureLiveClient
  simp only [hf, Bool.not_true, Bool.false_eq_true, if_false]
  cases c? with
  | none => exact ⟨fromEnv env (remoteBackendUrl env), by simp, hfresh⟩
  | some c =>
    cases hd : c.demo_mode with
    | true =>
      refine ⟨fromEnv env (remoteBackendUrl env), ?_, hfresh⟩
      simp [hd]
    | false =>
      cases hurl : (rstripSlash c.base_url != rstripSlash ((remoteBackendUrl env).getD "")) with
      | true =>
        refine ⟨fromEnv env (remoteBackendUrl env), ?_, hfresh⟩
        simp [hd, hurl]
      | false =>
        exact ⟨c, by simp [hd, hurl], hd⟩

lemma clearDemo_forced (c : PupClientM) :
    (clearDemoIfForced true c).demo_mode = false := by
  unfold clearDemoIfForced
  cases hd : c.demo_mode <;> simp [hd]

lemma clearDemo_not_forced (c : PupClientM) : clearDemoIfForced false c = c := by
  simp [clearDemoIfForced]

@[simp] lemma failUpdate_demo_forced (c : PupClientM) :
    (failUpdate true c).demo_mode = c.demo_mode := rfl

@[simp] lemma failUpdate_demo_not_forced (c : PupClientM) :
    (failUpdate false c).demo_mode = true := rfl

@[simp] lemma runDemoChat_success (i : Fin 4) : (runDemoChat i).success = true := rfl

@[simp] lemma runDemoChat_time (i : Fin 4) :
    (runDemoChat i).execution_time = 0.1 := rfl

@[simp] lemma runDemoChat_response_mem (i : Fin 4) :
    (runDemoChat i).response ∈ demoResponses := by
  fin_cases i <;> decide

lemma chatLive_failed_resp (f : Bool) (c : PupClientM) (o : ChatOracle)
    (h : (chatLive f c o).failed = true) :
    (chatLive f c o).resp = runDemoChat o.choice := by
  unfold chatLive connectTry at *
  cases hic : isConnected c <;> cases hhs : c.hasSession <;>
    cases hcr : o.connectResult <;> cases hch : o.chatResult <;> simp_all

lemma chatLive_demo_forced (c : PupClientM) (o : ChatOracle)
    (h : c.demo_mode = false) :
    demoOf (chatLive true c o).client = false := by
  unfold chatLive connectTry
  cases hic : isConnected c <;> cases hhs : c.hasSession <;>
    cases hcr : o.connectResult <;> cases hch : o.chatResult <;>
    simp_all [demoOf, failUpdate]

lemma chatLive_failed_demo_not_forced (c : PupClientM) (o : ChatOracle)
    (h : (chatLive false c o).failed = true) :
    demoOf (chatLive false c o).client = true := by
  unfold chatLive connectTry at *
  cases hic : isConnected c <;> cases hhs : c.hasSession <;>
    cases hcr : o.connectResult <;> cases hch : o.chatResult <;>
    simp_all [demoOf, failUpdate]

lemma statusLive_demo_forced (c : PupClientM) (o : StatusOracle)
    (h : c.demo_mode = false) :
    demoOf (statusLive true c o).client = false := by
  unfold statusLive connectTry
  cases hic : isConnected c <;> cases hhs : c.hasSession <;>
    cases hcr : o.connectResult <;> cases hch : o.statusResult <;>
    simp_all [demoOf, failUpdate]

lemma statusLive_failed_demo_not_forced (c : PupClientM) (o : StatusOracle)
    (h : (statusLive false c o).failed = true) :
    demoOf (statusLive false c o).client = true := by
  unfold statusLive connectTry at *
  cases hic : isConnected c <;> cases hhs : c.hasSession <;>
    cases hcr : o.connectResult <;> cases hch : o.statusResult <;>
    simp_all [demoOf, failUpdate]

/-- Branch (b) of `status_endpoint`: a demo-mode client with no forced
backend produces the fixed demo payload without touching the network. -/
lemma statusEndpoint_demo (env : Env) (c : PupClientM) (o : StatusOracle)
    (hf : forceLiveBackend env = false) (hd : c.demo_mode = true) :
    (statusEndpoint env (some c) o).payload =
      { available := true, version := "0.1.0", connected := false
        demo_mode := true, message := some "Running in demo mode" } := by
  unfold statusEndpoint
  rw [ensureLive_not_forced env (some c) hf]
  simp [hf, clearDemo_not_forced, hd]

lemma head?_dropWhile_not (p : Char → Bool) :
    ∀ (l : List Char) (a : Char), (l.dropWhile p).head? = some a → p a = false := by
  intro l
  induction l with
  | nil => intro a h; simp [List.dropWhile] at h
  | cons x xs ih =>
    intro a h
    by_cases hx : p x = true
    · rw [List.dropWhile_cons_of_pos hx] at h
      exact ih a h
    · rw [List.dropWhile_cons_of_neg hx] at h
      simp only [List.head?_cons, Option.some.injEq] at h
      rw [h] at hx
      simpa using hx

/-- `rstrip("/")` leaves no trailing slash. -/
lemma rstripSlash_no_trailing (s : String) (c : Char)
    (h : (rstripSlash s).data.getLast? = some c) : c ≠ '/' := by
  unfold rstripSlash at h
  rw [List.getLast?_reverse] at h
  have := head?_dropWhile_not (fun x => x == '/') s.data.reverse c h
  simpa using this

/-- Every branch of `from_env` stores the normalized resolved URL. -/
lemma fromEnv_base_url (env : Env) (u : Option String) :
    (fromEnv env u).base_url = rstripSlash (backendUrlChain env u) := by
  unfold fromEnv
  split
  · rfl
  · cases chooseKey env with
    | some k => rfl
    | none =>
      simp only []
      split <;> rfl

lemma backendUrlChain_first (env : Env) (u : Option String)
    (h : truthy env.alberto_api_url = true) :
    backendUrlChain env u = env.alberto_api_url.getD "" := by
  cases ha : env.alberto_api_url <;>
    simp_all [backendUrlChain, firstTruthy, truthy]

lemma backendUrlChain_second (env : Env) (u : Option String)
    (h1 : truthy env.alberto_api_url = false)
    (h2 : truthy env.pup_backend_url = true) :
    backendUrlChain env u = env.pup_backend_url.getD "" := by
  cases ha : env.alberto_api_url <;> cases hb : env.pup_backend_url <;>
    simp_all [backendUrlChain, firstTruthy, truthy]

lemma backendUrlChain_third (env : Env) (u : Option String)
    (h1 : truthy env.alberto_api_url = false)
    (h2 : truthy env.pup_backend_url = false)
    (h3 : truthy u = true) :
    backendUrlChain env u = u.getD "" := by
  cases ha : env.alberto_api_url <;> cases hb : env.pup_backend_url <;>
    cases hu : u <;>
    simp_all [backendUrlChain, firstTruthy, truthy]

lemma backendUrlChain_default (env : Env) (u : Option String)
    (h1 : truthy env.alberto_api_url = false)
    (h2 : truthy env.pup_backend_url = false)
    (h3 : truthy u = false) :
    backendUrlChain env u = "http://localhost:8080" := by
  cases ha : env.alberto_api_url <;> cases hb : env.pup_backend_url <;>
    cases hu : u <;>
    simp_all [backendUrlChain, firstTruthy, truthy]

lemma demoOf_true_some (x : Option PupClientM) (h : demoOf x = true) :
    ∃ c, x = some c ∧ c.demo_mode = true := by
  cases x with
  | none => simp [demoOf] at h
  | some c => exact ⟨c, rfl, h⟩

/-- Under a forced remote backend, `chat_endpoint` leaves the held client in
live mode. -/
lemma chatEndpoint_forced_demo (env : Env) (c? : Option PupClientM)
    (o : ChatOracle) (hf : forceLiveBackend env = true) :
    demoOf (chatEndpoint env c? o).client = false := by
  obtain ⟨c0, hE, hd0⟩ := ensureLive_forced env c? hf
  have hcd : (clearDemoIfForced true c0).demo_mode = false := clearDemo_forced c0
  have hred : chatEndpoint env c? o =
      chatLive true (clearDemoIfForced true c0) o := by
    simp [chatEndpoint, hE, hf]
  rw [hred]
  exact chatLive_demo_forced _ o hcd

/-- Under a forced remote backend, `status_endpoint` leaves the held client in
live mode. -/
lemma statusEndpoint_forced_demo (env : Env) (c? : Option PupClientM)
    (o : StatusOracle) (hf : forceLiveBackend env = true) :
    demoOf (statusEndpoint env c? o).client = false := by
  obtain ⟨c0, hE, hd0⟩ := ensureLive_forced env c? hf
  have hcd : (clearDemoIfForced true c0).demo_mode = false := clearDemo_forced c0
  have hred : statusEndpoint env c? o =
      statusLive true (clearDemoIfForced true c0) o := by
    simp [statusEndpoint, hE, hf, hcd]
  rw [hred]
  exact statusLive_demo_forced _ o hcd

/-- A caught exception on the live chat path always produces the canned demo
reply for that call. -/
lemma chatEndpoint_failed_resp (env : Env) (c? : Option PupClientM)
    (o : ChatOracle) (h : (chatEndpoint env c? o).failed = true) :
    (chatEndpoint env c? o).resp = runDemoChat o.choice := by
  cases hE : ensureLiveClient env c? with
  | none => simp [chatEndpoint, hE] at h
  | some c0 =>
    by_cases hg : (!forceLiveBackend env &&
        (clearDemoIfForced (forceLiveBackend env) c0).demo_mode) = true
    · simp [chatEndpoint, hE, hg] at h
    · have hg' : (!forceLiveBackend env &&
          (clearDemoIfForced (forceLiveBackend env) c0).demo_mode) = false := by
        cases hx : (!forceLiveBackend env &&
            (clearDemoIfForced (forceLiveBackend env) c0).demo_mode)
        · rfl
        · exact absurd hx hg
      have hred : chatEndpoint env c? o =
          chatLive (forceLiveBackend env)
            (clearDemoIfForced (forceLiveBackend env) c0) o := by
        simp [chatEndpoint, hE, hg']
      rw [hred] at h ⊢
      exact chatLive_failed_resp _ _ o h

/-- With no forced backend, a caught exception on the live chat path flips
the held client into demo mode. -/
lemma chatEndpoint_failed_demo (env : Env) (c? : Option PupClientM)
    (o : ChatOracle) (hf : forceLiveBackend env = false)
    (h : (chatEndpoint env c? o).failed = true) :
    demoOf (chatEndpoint env c? o).client = true := by
  have hE := ensureLive_not_forced env c? hf
  cases c? with
  | none => simp [chatEndpoint, hE, hf] at h
  | some c =>
    cases hd : c.demo_mode with
    | true => simp [chatEndpoint, hE, hf, clearDemo_not_forced, hd] at h
    | false =>
      have hred : chatEndpoint env (some c) o = chatLive false c o := by
        simp [chatEndpoint, hE, hf, clearDemo_not_forced, hd]
      rw [hred] at h ⊢
      exact chatLive_failed_demo_not_forced c o h

/-- With no forced backend, a caught exception on the live status path flips
the held client into demo mode. -/
lemma statusEndpoint_failed_demo (env : Env) (c? : Option PupClientM)
    (o : StatusOracle) (hf : forceLiveBackend env = false)
    (h : (statusEndpoint env c? o).failed = true) :
    demoOf (statusEndpoint env c? o).client = true := by
  have hE := ensureLive_not_forced env c? hf
  cases c? with
  | none => simp [statusEndpoint, hE, hf] at h
  | some c =>
    cases hd : c.demo_mode with
    | true => simp [statusEndpoint, hE, hf, clearDemo_not_forced, hd] at h
    | false =>
      have hred : statusEndpoint env (some c) o = statusLive false c o := by
        simp [statusEndpoint, hE, hf, clearDemo_not_forced, hd]
      rw [hred] at h ⊢
      exact statusLive_failed_demo_not_forced c o h

/-! ### Claim theorems -/

/-- C1 (amended): whenever a remote-backend variable (`ALBERTO_API_URL` or
`PUP_BACKEND_URL`) is set to a non-empty value, `from_env` returns a keyless
live-backend configuration — `demo_mode = False` and `api_key = None` —
regardless of which credential variables are also set and of their values. -/
theorem claim1_remote_backend_forces_keyless_live (env : Env) (u : Option String)
    (h : truthy env.alberto_api_url = true ∨ truthy env.pup_backend_url = true) :
    (fromEnv env u).demo_mode = false ∧ (fromEnv env u).api_key = none := by
  apply fromEnv_remote_backend
  rcases h with h | h <;> simp [h]

/-- C1 counterexample: `ALBERTO_API_URL` set to the empty string is "set to a
value", yet with `SYN_API_KEY=sk-live` the resolver returns a direct-provider
configuration carrying that credential, not the claimed keyless
live-backend one. -/
theorem claim1_counterexample :
    ¬ ((fromEnv { alberto_api_url := some "", syn_api_key := some "sk-live" }
          none).demo_mode = false
       ∧ (fromEnv { alberto_api_url := some "", syn_api_key := some "sk-live" }
          none).api_key = none) := by
  decide

/-- Witness for C1 at a concrete non-empty remote backend URL. -/
theorem claim1_witness :
    (truthy (some "https://worker.example.com") = true ∨
      truthy (none : Option String) = true)
    ∧ ((fromEnv
          { alberto_api_url := some "https://worker.example.com"
            syn_api_key := some "sk-live" } none).demo_mode = false
       ∧ (fromEnv
          { alberto_api_url := some "https://worker.example.com"
            syn_api_key := some "sk-live" } none).api_key = none) :=
  ⟨Or.inl (by decide),
   claim1_remote_backend_forces_keyless_live
     { alberto_api_url := some "https://worker.example.com"
       syn_api_key := some "sk-live" } none (Or.inl (by decide))⟩

/-- C2: with no remote-backend variable set and at least one credential
usable (non-empty after trim), `from_env` returns a live-direct
configuration: `demo_mode = False` and `api_key` equal to the credential
selected by the stated precedence (`chooseKey`: the provider named by
`PUP_PROVIDER` when set and usable, otherwise `OPEN_API_KEY` first, then
`SYN_API_KEY`), which is never `None` in this region. -/
theorem claim2_direct_provider_mode (env : Env) (u : Option String)
    (hb1 : truthy env.alberto_api_url = false)
    (hb2 : truthy env.pup_backend_url = false)
    (hc : usable env.syn_api_key = true ∨ usable env.open_api_key = true) :
    (fromEnv env u).demo_mode = false
    ∧ (fromEnv env u).api_key = chooseKey env
    ∧ chooseKey env ≠ none := by
  have hk := chooseKey_ne_none env hc
  cases hck : chooseKey env with
  | none => exact absurd hck hk
  | some k =>
    refine ⟨?_, ?_, by simp⟩ <;>
      (unfold fromEnv; simp [hb1, hb2, hck, mkPupClient])

/-- Witness for C2 at the claim's concrete scenario:
`OPEN_API_KEY="sk-test123"`, `SYN_API_KEY=""`. -/
theorem claim2_witness :
    (usable (some "sk-test123") = true)
    ∧ ((fromEnv { syn_api_key := some "", open_api_key := some "sk-test123" }
          none).demo_mode = false
       ∧ (fromEnv { syn_api_key := some "", open_api_key := some "sk-test123" }
          none).api_key
           = chooseKey { syn_api_key := some "", open_api_key := some "sk-test123" }
       ∧ chooseKey { syn_api_key := some "", open_api_key := some "sk-test123" }
           ≠ none)
    ∧ chooseKey { syn_api_key := some "", open_api_key := some "sk-test123" }
        = some "sk-test123" :=
  ⟨by decide,
   claim2_direct_provider_mode
     { syn_api_key := some "", open_api_key := some "sk-test123" } none
     (by decide) (by decide) (Or.inr (by decide)),
   by decide⟩

/-- C3: with no remote-backend variable and no usable credential, `from_env`
returns demo mode with no credential exactly when the resolved URL is
loopback-classified and the keyless flag is not truthy; otherwise it returns
keyless live-backend (`demo_mode = False`, `api_key = None`). -/
theorem claim3_keyless_or_demo_fallback (env : Env) (u : Option String)
    (hb1 : truthy env.alberto_api_url = false)
    (hb2 : truthy env.pup_backend_url = false)
    (hs : usable env.syn_api_key = false)
    (ho : usable env.open_api_key = false) :
    ((isLocalUrl (backendUrlChain env u) = true
        ∧ truthyFlag env.pup_allow_keyless_backend = false) →
      (fromEnv env u).demo_mode = true ∧ (fromEnv env u).api_key = none)
    ∧ ((isLocalUrl (backendUrlChain env u) = false
        ∨ truthyFlag env.pup_allow_keyless_backend = true) →
      (fromEnv env u).demo_mode = false ∧ (fromEnv env u).api_key = none) := by
  have hck := chooseKey_eq_none env hs ho
  constructor
  · rintro ⟨hl, hflag⟩
    unfold fromEnv
    simp [hb1, hb2, hck, hl, hflag, mkPupClient]
  · rintro (hl | hflag)
    · unfold fromEnv
      simp [hb1, hb2, hck, hl, mkPupClient]
    · unfold fromEnv
      simp [hb1, hb2, hck, hflag, mkPupClient]

/-- Witness for C3: empty environment, default loopback URL, no flag. -/
theorem claim3_witness :
    (isLocalUrl (backendUrlChain {} none) = true
      ∧ truthyFlag (({} : Env)).pup_allow_keyless_backend = false)
    ∧ ((fromEnv {} none).demo_mode = true ∧ (fromEnv {} none).api_key = none) :=
  ⟨⟨by decide, by decide⟩,
   (claim3_keyless_or_demo_fallback {} none
      (by decide) (by decide) (by decide) (by decide)).1 ⟨by decide, by decide⟩⟩

/-- C4: resolution always stores exactly the normalized value of the fixed
precedence chain `ALBERTO_API_URL`, then `PUP_BACKEND_URL`, then the caller's
`base_url`, then `http://localhost:8080`, with trailing slashes stripped, and
the stored URL never ends in a slash. -/
theorem claim4_backend_url_resolution (env : Env) (u : Option String) :
    (fromEnv env u).base_url = rstripSlash (backendUrlChain env u)
    ∧ (truthy env.alberto_api_url = true →
        backendUrlChain env u = env.alberto_api_url.getD "")
    ∧ (truthy env.alberto_api_url = false → truthy env.pup_backend_url = true →
        backendUrlChain env u = env.pup_backend_url.getD "")
    ∧ (truthy env.alberto_api_url = false → truthy env.pup_backend_url = false →
        truthy u = true → backendUrlChain env u = u.getD "")
    ∧ (truthy env.alberto_api_url = false → truthy env.pup_backend_url = false →
        truthy u = false → backendUrlChain env u = "http://localhost:8080")
    ∧ (∀ c : Char, (fromEnv env u).base_url.data.getLast? = some c → c ≠ '/') := by
  refine ⟨fromEnv_base_url env u,
    backendUrlChain_first env u,
    backendUrlChain_second env u,
    backendUrlChain_third env u,
    backendUrlChain_default env u, ?_⟩
  intro c hc
  rw [fromEnv_base_url env u] at hc
  exact rstripSlash_no_trailing _ c hc

/-- Witness for C4 at a URL with trailing slashes. -/
theorem claim4_witness :
    ((fromEnv { alberto_api_url := some "https://w.example.com///" } none).base_url
       = rstripSlash (backendUrlChain
           { alberto_api_url := some "https://w.example.com///" } none))
    ∧ (truthy (some "https://w.example.com///") = true)
    ∧ backendUrlChain { alberto_api_url := some "https://w.example.com///" } none
        = "https://w.example.com///"
    ∧ (fromEnv { alberto_api_url := some "https://w.example.com///" } none).base_url
        = "https://w.example.com" :=
  ⟨(claim4_backend_url_resolution
      { alberto_api_url := some "https://w.example.com///" } none).1,
   by decide,
   (claim4_backend_url_resolution
      { alberto_api_url := some "https://w.example.com///" } none).2.1 (by decide),
   by decide⟩

/-- C5: a transport failure during a live chat or status call flips the held
client to demo mode exactly when live mode is not forced; under a forced
remote backend (`_force_live_backend`) the client never ends a request in
demo mode, and the failing chat call alone answers with the canned demo
reply. -/
theorem claim5_forced_live_never_demotes (env : Env) (c? : Option PupClientM)
    (o : ChatOracle) (o2 : StatusOracle) :
    (forceLiveBackend env = true →
      demoOf (chatEndpoint env c? o).client = false
      ∧ demoOf (statusEndpoint env c? o2).client = false
      ∧ ((chatEndpoint env c? o).failed = true →
          (chatEndpoint env c? o).resp = runDemoChat o.choice))
    ∧ (forceLiveBackend env = false →
      ((chatEndpoint env c? o).failed = true →
        demoOf (chatEndpoint env c? o).client = true)
      ∧ ((statusEndpoint env c? o2).failed = true →
        demoOf (statusEndpoint env c? o2).client = true)) := by
  constructor
  · intro hf
    exact ⟨chatEndpoint_forced_demo env c? o hf,
      statusEndpoint_forced_demo env c? o2 hf,
      chatEndpoint_failed_resp env c? o⟩
  · intro hf
    exact ⟨chatEndpoint_failed_demo env c? o hf,
      statusEndpoint_failed_demo env c? o2 hf⟩

/-- Witness for C5: forced remote backend, both connect attempts fail, yet
neither endpoint leaves the client in demo mode. -/
theorem claim5_witness :
    (forceLiveBackend { alberto_api_url := some "https://w.example.com" } = true)
    ∧ demoOf (chatEndpoint { alberto_api_url := some "https://w.example.com" }
        none ⟨.err "conn refused", .err "conn refused", 0⟩).client = false
    ∧ demoOf (statusEndpoint { alberto_api_url := some "https://w.example.com" }
        none ⟨.err "conn refused", .err "conn refused"⟩).client = false :=
  ⟨by decide,
   ((claim5_forced_live_never_demotes
      { alberto_api_url := some "https://w.example.com" } none
      ⟨.err "conn refused", .err "conn refused", 0⟩
      ⟨.err "conn refused", .err "conn refused"⟩).1 (by decide)).1,
   ((claim5_forced_live_never_demotes
      { alberto_api_url := some "https://w.example.com" } none
      ⟨.err "conn refused", .err "conn refused", 0⟩
      ⟨.err "conn refused", .err "conn refused"⟩).1 (by decide)).2.1⟩

/-- C6: `chat_endpoint` is total, and on any caught upstream failure it
answers with a canned demo `ChatResponse` with `success = true` (never an
error), and — when live mode is not forced — a subsequent `status_endpoint`
call on the resulting client reports `demo_mode = true`. -/
theorem claim6_chat_failure_graceful (env : Env) (c? : Option PupClientM)
    (o : ChatOracle) (o2 : StatusOracle)
    (hfail : (chatEndpoint env c? o).failed = true) :
    (chatEndpoint env c? o).resp.success = true
    ∧ (chatEndpoint env c? o).resp.response ∈ demoResponses
    ∧ (chatEndpoint env c? o).resp.execution_time = 0.1
    ∧ (forceLiveBackend env = false →
        (statusEndpoint env (chatEndpoint env c? o).client o2).payload.demo_mode
          = true) := by
  have hresp := chatEndpoint_failed_resp env c? o hfail
  refine ⟨by rw [hresp]; exact runDemoChat_success o.choice,
    by rw [hresp]; exact runDemoChat_response_mem o.choice,
    by rw [hresp]; exact runDemoChat_time o.choice, ?_⟩
  intro hf
  have hd := chatEndpoint_failed_demo env c? o hf hfail
  obtain ⟨c', hc', hcd⟩ := demoOf_true_some _ hd
  rw [hc', statusEndpoint_demo env c' o2 hf hcd]

/-- Witness for C6: a live, connected local client whose upstream chat raises
a timeout. -/
theorem claim6_witness :
    ((chatEndpoint {}
        (some { base_url := "http://localhost:8080", api_key := none
                demo_mode := false, hasSession := true, connFlag := true })
        ⟨.ok (), .err "timeout", 2⟩).failed = true)
    ∧ ((chatEndpoint {}
        (some { base_url := "http://localhost:8080", api_key := none
                demo_mode := false, hasSession := true, connFlag := true })
        ⟨.ok (), .err "timeout", 2⟩).resp.success = true
       ∧ (chatEndpoint {}
        (some { base_url := "http://localhost:8080", api_key := none
                demo_mode := false, hasSession := true, connFlag := true })
        ⟨.ok (), .err "timeout", 2⟩).resp.response ∈ demoResponses
       ∧ (chatEndpoint {}
        (some { base_url := "http://localhost:8080", api_key := none
                demo_mode := false, hasSession := true, connFlag := true })
        ⟨.ok (), .err "timeout", 2⟩).resp.execution_time = 0.1
       ∧ (forceLiveBackend {} = false →
          (statusEndpoint {}
            (chatEndpoint {}
              (some { base_url := "http://localhost:8080", api_key := none
                      demo_mode := false, hasSession := true, connFlag := true })
              ⟨.ok (), .err "timeout", 2⟩).client
            ⟨.ok (), .ok { available := true, version := "1.0" }⟩).payload.demo_mode
              = true)) :=
  ⟨by decide,
   claim6_chat_failure_graceful {}
     (some { base_url := "http://localhost:8080", api_key := none
             demo_mode := false, hasSession := true, connFlag := true })
     ⟨.ok (), .err "timeout", 2⟩
     ⟨.ok (), .ok { available := true, version := "1.0" }⟩
     (by decide)⟩

/-- C7: with a demo-mode client and no forced remote backend, `chat_endpoint`
answers locally — zero upstream chat attempts, client state untouched —
with `success = true`, `execution_time = 0.1`, and a response from the fixed
canned set of four demo strings. -/
theorem claim7_demo_chat_local (env : Env) (c : PupClientM) (o : ChatOracle)
    (hf : forceLiveBackend env = false) (hd : c.demo_mode = true) :
    (chatEndpoint env (some c) o).netCalls = 0
    ∧ (chatEndpoint env (some c) o).client = some c
    ∧ (chatEndpoint env (some c) o).resp.success = true
    ∧ (chatEndpoint env (some c) o).resp.execution_time = 0.1
    ∧ (chatEndpoint env (some c) o).resp.response ∈ demoResponses := by
  have hE := ensureLive_not_forced env (some c) hf
  have hred : chatEndpoint env (some c) o =
      ⟨runDemoChat o.choice, some c, 0, false⟩ := by
    simp [chatEndpoint, hE, hf, clearDemo_not_forced, hd]
  rw [hred]
  exact ⟨rfl, rfl, rfl, rfl, runDemoChat_response_mem o.choice⟩

/-- Witness for C7: the demo client produced by `from_env` on an empty
environment, with an oracle whose network results would all fail. -/
theorem claim7_witness :
    (forceLiveBackend ({} : Env) = false ∧ (fromEnv {} none).demo_mode = true)
    ∧ ((chatEndpoint {} (some (fromEnv {} none))
          ⟨.err "refused", .err "refused", 1⟩).netCalls = 0
       ∧ (chatEndpoint {} (some (fromEnv {} none))
          ⟨.err "refused", .err "refused", 1⟩).client = some (fromEnv {} none)
       ∧ (chatEndpoint {} (some (fromEnv {} none))
          ⟨.err "refused", .err "refused", 1⟩).resp.success = true
       ∧ (chatEndpoint {} (some (fromEnv {} none))
          ⟨.err "refused", .err "refused", 1⟩).resp.execution_time = 0.1
       ∧ (chatEndpoint {} (some (fromEnv {} none))
          ⟨.err "refused", .err "refused", 1⟩).resp.response ∈ demoResponses) :=
  ⟨⟨by decide, by decide⟩,
   claim7_demo_chat_local {} (fromEnv {} none)
     ⟨.err "refused", .err "refused", 1⟩ (by decide) (by decide)⟩

/-- C8: starting from an empty cache, a successful `get_status` at time `t0`
issues one upstream request; a second call at `t1` with `t1 - t0 < 30`
issues none and returns the memoized snapshot unchanged. -/
theorem claim8_status_cache (t0 t1 : ℚ) (s : PupStatusM)
    (f2 : NetResult PupStatusM) (h : t1 - t0 < 30) :
    (getStatus {} t0 (.ok s)).requested = true
    ∧ (getStatus {} t0 (.ok s)).result = .ok s
    ∧ (getStatus (getStatus {} t0 (.ok s)).state t1 f2).requested = false
    ∧ (getStatus (getStatus {} t0 (.ok s)).state t1 f2).result = .ok s
    ∧ (getStatus (getStatus {} t0 (.ok s)).state t1 f2).state
        = (getStatus {} t0 (.ok s)).state := by
  have h1 : getStatus {} t0 (.ok s) =
      ⟨.ok s, { cache := some s, ts := some t0 }, true⟩ := by
    simp [getStatus, getStatusFetch]
  rw [h1]
  have h2 : getStatus { cache := some s, ts := some t0 } t1 f2 =
      ⟨.ok s, { cache := some s, ts := some t0 }, false⟩ := by
    simp [getStatus, h]
  rw [h2]
  exact ⟨rfl, rfl, rfl, rfl, rfl⟩

/-- Witness for C8 at `t0 = 0`, `t1 = 10`, with an unreachable backend on the
second call. -/
theorem claim8_witness :
    ((10 : ℚ) - 0 < 30)
    ∧ ((getStatus {} 0
          (.ok ({ available := true, version := "0.1.0" } : PupStatusM))).requested
            = true
       ∧ (getStatus {} 0
          (.ok ({ available := true, version := "0.1.0" } : PupStatusM))).result
            = .ok { available := true, version := "0.1.0" }
       ∧ (getStatus (getStatus {} 0
            (.ok ({ available := true, version := "0.1.0" } : PupStatusM))).state
            10 (.err "boom")).requested = false
       ∧ (getStatus (getStatus {} 0
            (.ok ({ available := true, version := "0.1.0" } : PupStatusM))).state
            10 (.err "boom")).result = .ok { available := true, version := "0.1.0" }
       ∧ (getStatus (getStatus {} 0
            (.ok ({ available := true, version := "0.1.0" } : PupStatusM))).state
            10 (.err "boom")).state
           = (getStatus {} 0
              (.ok ({ available := true, version := "0.1.0" } : PupStatusM))).state) :=
  ⟨by norm_num,
   claim8_status_cache 0 10 { available := true, version := "0.1.0" }
     (.err "boom") (by norm_num)⟩

/-- C9 (amended): whenever the gateway holds no client and no remote backend
forces live mode, `GET /api/status` returns `available = false`,
`connected = false`, `demo_mode = true`, and the message
"No client available" (capital N); in the raw no-client branch `demo_mode` is
the negation of the forced-live flag rather than unconditionally true. -/
theorem claim9_no_client_status (env : Env) (o : StatusOracle)
    (hf : forceLiveBackend env = false) :
    (statusEndpoint env none o).payload =
      { available := false, version := "0.1.0", connected := false
        demo_mode := true, message := some "No client available" }
    ∧ (statusEndpoint env none o).client = none := by
  have hE := ensureLive_not_forced env none hf
  constructor <;> simp [statusEndpoint, hE, hf]

/-- C9 counterexample: with a forced remote backend and no held client the
status payload has `demo_mode = false` and no "no client available" message
(a live client is provisioned and the connect failure path answers instead);
and even in the unforced no-client branch the message is capitalized
"No client available", not "no client available". -/
theorem claim9_counterexample :
    (¬ ((statusEndpoint { alberto_api_url := some "https://api.example.com" }
          none ⟨.err "dns failure", .err "dns failure"⟩).payload.demo_mode = true
        ∧ (statusEndpoint { alberto_api_url := some "https://api.example.com" }
          none ⟨.err "dns failure", .err "dns failure"⟩).payload.message
            = some "no client available"))
    ∧ (statusEndpoint {} none ⟨.err "x", .err "x"⟩).payload.message
        ≠ some "no client available" := by
  decide

/-- Witness for C9 on the empty environment. -/
theorem claim9_witness :
    (forceLiveBackend ({} : Env) = false)
    ∧ ((statusEndpoint {} none
          ⟨.ok (), .ok { available := true, version := "1.0" }⟩).payload =
        { available := false, version := "0.1.0", connected := false
          demo_mode := true, message := some "No client available" }
       ∧ (statusEndpoint {} none
          ⟨.ok (), .ok { available := true, version := "1.0" }⟩).client = none) :=
  ⟨by decide,
   claim9_no_client_status {} ⟨.ok (), .ok { available := true, version := "1.0" }⟩
     (by decide)⟩

/-- C10: the loopback test is the literal four-pattern string-start check:
in the no-backend, no-credential, no-flag region, `from_env` yields demo
mode exactly when the explicit URL starts with one of the four patterns;
`http://localhost.evil.com` and `http://127.0.0.10` are classified local,
`http://[::1]:8080` is not (keyless live-backend). -/
theorem claim10_loopback_literal (env : Env) (u : String)
    (hb1 : truthy env.alberto_api_url = false)
    (hb2 : truthy env.pup_backend_url = false)
    (hs : usable env.syn_api_key = false)
    (ho : usable env.open_api_key = false)
    (hflag : truthyFlag env.pup_allow_keyless_backend = false)
    (hu : u ≠ "") :
    ((fromEnv env (some u)).demo_mode = isLocalUrl u
     ∧ (fromEnv env (some u)).api_key = none)
    ∧ isLocalUrl "http://localhost.evil.com" = true
    ∧ isLocalUrl "http://127.0.0.10" = true
    ∧ (isLocalUrl "http://[::1]:8080" = false
       ∧ (fromEnv {} (some "http://[::1]:8080")).demo_mode = false
       ∧ (fromEnv {} (some "http://[::1]:8080")).api_key = none) := by
  have hu' : truthy (some u) = true := by simp [truthy, hu]
  have hchain : backendUrlChain env (some u) = u := by
    rw [backendUrlChain_third env (some u) hb1 hb2 hu']
    rfl
  have hck := chooseKey_eq_none env hs ho
  refine ⟨?_, by decide, by decide, by decide, by decide, by decide⟩
  unfold fromEnv
  cases hl : isLocalUrl u <;>
    simp [hb1, hb2, hck, hchain, hl, hflag, mkPupClient]

/-- Witness for C10 at the suffix-bearing host `http://localhost.evil.com`. -/
theorem claim10_witness :
    (((fromEnv {} (some "http://localhost.evil.com")).demo_mode
        = isLocalUrl "http://localhost.evil.com"
      ∧ (fromEnv {} (some "http://localhost.evil.com")).api_key = none)
     ∧ isLocalUrl "http://localhost.evil.com" = true
     ∧ isLocalUrl "http://127.0.0.10" = true
     ∧ (isLocalUrl "http://[::1]:8080" = false
        ∧ (fromEnv {} (some "http://[::1]:8080")).demo_mode = false
        ∧ (fromEnv {} (some "http://[::1]:8080")).api_key = none))
    ∧ (fromEnv {} (some "http://localhost.evil.com")).demo_mode = true :=
  ⟨claim10_loopback_literal {} "http://localhost.evil.com"
     (by decide) (by decide) (by decide) (by decide) (by decide) (by decide),
   by decide⟩

end PupSDK
